import Mathlib

/-!
Verification development for the git-deploy-healer PaaS control plane.

The definitions below are a shallow embedding of the Python source:
  * `src/core/engine.py`   — `Result.get_host_port`, `ContainerEngine.deploy`,
    `ContainerEngine.deploy_with_rollback`, `ContainerEngine.health_check`
  * `src/core/network.py`  — `validate_port`, `parse_docker_port_mapping`
  * `src/core/healer.py`   — `ContainerHealer.heal`, and the healing-registry
    protocol of `ContainerHealer.check_health`

Python dynamic values are modelled by the inductive `PyVal`; Python
exceptions by `PyErr`; code that can raise is written in the `Except PyErr`
monad (or in `PyM`, which additionally records the container-runtime calls
the code issues, so that side effects are observable in theorems).
-/

/-- Model of a Python runtime value as far as the embedded code inspects one:
`None`, `int`, `float` (represented as the rational it denotes), `str`,
`dict` (insertion-ordered key/value association list), `list`, and `other`
for any object of a type the embedded code never matches on. -/
inductive PyVal where
| none : PyVal
| int (n : Int) : PyVal
| float (q : Rat) : PyVal
| str (s : String) : PyVal
| dict (entries : List (PyVal × PyVal)) : PyVal
| list (xs : List PyVal) : PyVal
| other : PyVal

/-- Model of the Python exceptions the embedded code raises or catches.
`msg` below models `str(e)`. -/
inductive PyErr where
| deploymentError (msg : String) : PyErr
| healthCheckError (msg : String) : PyErr
| notFound (msg : String) : PyErr
| apiError (msg : String) : PyErr
| valueError (msg : String) : PyErr
| typeError (msg : String) : PyErr
| keyError (msg : String) : PyErr
| attributeError (msg : String) : PyErr
| other (msg : String) : PyErr
deriving DecidableEq

/-- The text `str(e)` of an exception, as used in f-strings of the source. -/
def PyErr.msg : PyErr → String
| .deploymentError m => m
| .healthCheckError m => m
| .notFound m => m
| .apiError m => m
| .valueError m => m
| .typeError m => m
| .keyError m => m
| .attributeError m => m
| .other m => m

/-- Membership of an exception in the catch clause
`except (ValueError, TypeError)` of `Result.get_host_port`. -/
def PyErr.isValueOrType : PyErr → Bool
| .valueError _ => true
| .typeError _ => true
| _ => false

/-- Membership of an exception in the catch clause
`except (ValueError, TypeError, KeyError)` of `Result.get_host_port`. -/
def PyErr.isValueTypeKey : PyErr → Bool
| .valueError _ => true
| .typeError _ => true
| .keyError _ => true
| _ => false

/-- Python truthiness (`if x:`) for the shapes in `PyVal`. -/
def pyTruthy : PyVal → Bool
| .none => false
| .int n => !(n == 0)
| .float q => !(q == 0)
| .str s => !(s == "")
| .dict [] => false
| .dict (_ :: _) => true
| .list [] => false
| .list (_ :: _) => true
| .other => true

/-- Decimal digits of a candidate integer literal: `some` of the value when
every character is an ASCII digit, `none` otherwise (the empty list gives
`some 0` and is ruled out by the callers). -/
def digitsToNat (cs : List Char) : Option Nat :=
  cs.foldl
    (fun acc c =>
      acc.bind fun n => if c.isDigit then some (n * 10 + (c.toNat - 48)) else Option.none)
    (some 0)

/-- Model of Python `int(s)` on a `str`: surrounding whitespace is stripped,
an optional single sign is allowed, and the rest must be a nonempty run of
decimal digits; `none` models the `ValueError` raised otherwise.  (Python
additionally accepts underscore digit grouping and non-ASCII decimal digits;
those inputs are not modelled.) -/
def pyStrToInt (s : String) : Option Int :=
  let cs := ((s.toList.dropWhile Char.isWhitespace).reverse.dropWhile
      Char.isWhitespace).reverse
  match cs with
  | [] => Option.none
  | '+' :: rest =>
      match rest with
      | [] => Option.none
      | _ => (digitsToNat rest).map Int.ofNat
  | '-' :: rest =>
      match rest with
      | [] => Option.none
      | _ => (digitsToNat rest).map fun n => -(n : Int)
  | _ => (digitsToNat cs).map Int.ofNat

/-- Truncation toward zero, the behaviour of Python `int()` on a float. -/
def ratTrunc (q : Rat) : Int :=
  if q < 0 then -((-q).floor) else q.floor

/-- Model of the Python builtin `int(x)` on an arbitrary value: `int` is
returned as is, a `float` is truncated toward zero, a `str` is parsed
(`ValueError` on failure), and every other shape raises `TypeError`. -/
def pyToInt : PyVal → Except PyErr Int
| .int n => .ok n
| .float q => .ok (ratTrunc q)
| .str s =>
    match pyStrToInt s with
    | some n => .ok n
    | Option.none => .error (.valueError ("invalid literal for int: " ++ s))
| _ => .error (.typeError "int() argument must be a string or a number")

/-- Lookup of a string key in a modelled `dict`: Python `d.get(key)` and
`key in d` for a `str` key compare the key by equality, so only `str` keys
equal to `key` can match; the first matching entry wins. -/
def dictGetStr (entries : List (PyVal × PyVal)) (key : String) : Option PyVal :=
  match entries with
  | [] => Option.none
  | (PyVal.str k, v) :: rest =>
      if k = key then some v else dictGetStr rest key
  | _ :: rest => dictGetStr rest key

/-- Python `key in d` for a `str` key. -/
def dictHasStr (entries : List (PyVal × PyVal)) (key : String) : Bool :=
  (dictGetStr entries key).isSome

/-- Scan of the `dict` case of `Result.get_host_port`
(engine.py lines 68-81): iterate the port mappings in order; entries whose
value is `None` are skipped; for an entry whose value is a nonempty list
whose first element is a dict containing `'HostPort'`, `int()` of that field
is returned, and a `ValueError`/`TypeError`/`KeyError` from `int()` moves on
to the next entry (`continue`); any other entry shape is passed over. -/
def getHostPortDictScan : List (PyVal × PyVal) → Except PyErr (Option Int)
| [] => .ok Option.none
| (_, PyVal.none) :: rest => getHostPortDictScan rest
| (_, PyVal.list (first :: _)) :: rest =>
    match first with
    | .dict fm =>
        if dictHasStr fm "HostPort" then
          match pyToInt ((dictGetStr fm "HostPort").getD PyVal.none) with
          | .ok n => .ok (some n)
          | .error e =>
              if e.isValueTypeKey then getHostPortDictScan rest else .error e
        else getHostPortDictScan rest
    | _ => getHostPortDictScan rest
| _ :: rest => getHostPortDictScan rest

/-- The `list` case of `Result.get_host_port` (engine.py lines 84-90):
only the first element is inspected; a failed `int()` conversion is caught
and the function falls through to `return None`. -/
def getHostPortListScan : List PyVal → Except PyErr (Option Int)
| [] => .ok Option.none
| first :: _ =>
    match first with
    | .dict fm =>
        if dictHasStr fm "HostPort" then
          match pyToInt ((dictGetStr fm "HostPort").getD PyVal.none) with
          | .ok n => .ok (some n)
          | .error e =>
              if e.isValueTypeKey then .ok Option.none else .error e
        else .ok Option.none
    | _ => .ok Option.none

/-- Embedding of `Result.get_host_port` (engine.py lines 41-92), with the
possibility of an uncaught exception kept explicit in the `Except` type.
The sequential `isinstance` dispatch of the source becomes a match: `None`
returns `None`; an `int` is returned as is; a `str` is passed through
`int()` with `ValueError`/`TypeError` caught (falling through to
`return None`, since a `str` matches neither the dict nor the list case);
a dict or list is scanned as in the source; anything else reaches the final
`return None`. -/
def get_host_portE : PyVal → Except PyErr (Option Int)
| .none => .ok Option.none
| .int n => .ok (some n)
| .str s =>
    match pyToInt (.str s) with
    | .ok n => .ok (some n)
    | .error e => if e.isValueOrType then .ok Option.none else .error e
| .dict entries => getHostPortDictScan entries
| .list xs => getHostPortListScan xs
| _ => .ok Option.none

/-- The value `Result.get_host_port` returns; the `.error` branch is proved
unreachable (claim C4). -/
def get_host_port (hp : PyVal) : Option Int :=
  match get_host_portE hp with
  | .ok r => r
  | .error _ => Option.none

/-- The `try` block of `validate_port` (network.py lines 31-37): `int()`
with `ValueError`/`TypeError` caught, and the value returned only when it
lies in `[1, 65535]`. -/
def validateViaInt (port : PyVal) : Option Int :=
  match pyToInt port with
  | .ok n => if 1 ≤ n ∧ n ≤ 65535 then some n else Option.none
  | .error _ => Option.none

/-- Embedding of `validate_port` (network.py lines 28-37): a float that is
not integral is rejected up front; everything else goes through the
`int()`-and-range check. -/
def validate_port (port : PyVal) : Option Int :=
  match port with
  | .float q => if !q.isInt then Option.none else validateViaInt port
  | _ => validateViaInt port

/-- The dict loop of `parse_docker_port_mapping` (network.py lines 65-70):
the first entry whose value is a truthy list whose first element is a dict
containing `'HostPort'` decides the answer — `validate_port` of that field
is returned even when it is `None`. -/
def parseDockerDictScan : List (PyVal × PyVal) → Option Int
| [] => Option.none
| (_, PyVal.list (first :: _)) :: rest =>
    match first with
    | .dict fm =>
        if dictHasStr fm "HostPort" then
          validate_port ((dictGetStr fm "HostPort").getD PyVal.none)
        else parseDockerDictScan rest
    | _ => parseDockerDictScan rest
| _ :: rest => parseDockerDictScan rest

/-- The dict/list shape dispatch of `parse_docker_port_mapping`
(network.py lines 64-78), reached when the direct `validate_port` check
did not answer. -/
def parseDockerFallback (ports : PyVal) : Option Int :=
  match ports with
  | .dict entries => parseDockerDictScan entries
  | .list (first :: _) =>
      match first with
      | .dict fm =>
          if dictHasStr fm "HostPort" then
            validate_port ((dictGetStr fm "HostPort").getD PyVal.none)
          else Option.none
      | _ => Option.none
  | _ => Option.none

/-- Embedding of `parse_docker_port_mapping` (network.py lines 40-78).
`if validated:` in the source is the `some` test here: `validate_port`
only ever returns values in `[1, 65535]`, which are all truthy. -/
def parse_docker_port_mapping (ports : PyVal) : Option Int :=
  match validate_port ports with
  | some n => some n
  | Option.none => parseDockerFallback ports


/-! ## Effect monad for the container engine

`PyM` is a state-passing embedding of the Python methods: the state is the
trace of container-runtime calls issued so far (appended even by calls that
then raise), and the value is either a normal return or an uncaught Python
exception. -/

/-- A container-runtime call issued by the embedded code. -/
inductive RtCall where
| run (image : String) (name : String) (labels : List (String × String))
    (environment : List (String × String)) (ports : List (String × PyVal)) :
    RtCall
| stop (id : String) (timeout : Int) : RtCall
| remove (id : String) (force : Bool) : RtCall
| restart (id : String) (timeout : Int) : RtCall
| deployApp (app : String) (image : String) : RtCall

/-- The effect monad: a computation appends runtime calls to the trace and
either returns a value or propagates a Python exception.  The trace is kept
on the exception path as well — calls already issued stay issued. -/
def PyM (α : Type) : Type :=
  List RtCall → Except PyErr α × List RtCall

instance : Monad PyM where
  pure a := fun s => (.ok a, s)
  bind x f := fun s =>
    match x s with
    | (.ok a, s1) => f a s1
    | (.error e, s1) => (.error e, s1)

/-- Record one runtime call in the trace. -/
def PyM.emit (a : RtCall) : PyM Unit :=
  fun s => (.ok (), s ++ [a])

/-- Lift an externally determined outcome (success or raised exception). -/
def PyM.lift (r : Except PyErr α) : PyM α :=
  fun s => (r, s)

/-- Python `try: body except Exception: handler` — every exception kind in
`PyErr` is a subclass of `Exception`, so the handler catches them all. -/
def pyCatchAll (body : PyM α) (handler : PyErr → PyM α) : PyM α :=
  fun s =>
    match body s with
    | (.ok a, s1) => (.ok a, s1)
    | (.error e, s1) => handler e s1

/-! ## The container engine (src/core/engine.py)

The Docker client is modelled by `EngineEnv`: one field per client call the
engine issues, giving the outcome (return value or raised exception) the
runtime produces for it.  The embedding assumes the engine was constructed
with a client (`ContainerEngine(client=...)`); the lazy
`docker.from_env()` of `_ensure_client` is not modelled. -/

/-- A container object as the engine inspects it:
`getattr(c, "id", None)`. -/
structure PContainer where
  id : Option String
deriving DecidableEq

/-- The new container returned by `client.containers.run`, as read after
`container.reload()`: its id and its raw `ports` attribute. -/
structure NewContainer where
  id : Option String
  ports : PyVal

/-- Outcomes the container runtime produces for each call
`deploy`/`deploy_with_rollback` makes. -/
structure EngineEnv where
  /-- `int(time.time())` when `deploy` builds the instance name. -/
  now : Int
  /-- `client.containers.list` inside `list_containers(app_name)`. -/
  listRes : Except PyErr (List PContainer)
  /-- `client.containers.run(**run_kwargs)` (post-reload view on success). -/
  runRes : Except PyErr NewContainer
  /-- `container.reload()` after the run. -/
  reloadRes : Except PyErr Unit
  /-- `client.containers.list` inside the metrics block of `deploy`. -/
  metricsRes : Except PyErr Nat
  /-- `client.containers.get(result.container_id)`. -/
  getRes : PyVal → Except PyErr PContainer
  /-- The value `self.health_check(new_container, timeout=30)` returns
      (`health_check` catches every exception internally, so a plain
      boolean is faithful). -/
  healthOk : Bool
  /-- `stop_container(id, ...)`: `client.containers.get(id)` followed by
      `c.stop(...)`, re-raising any failure. -/
  stopRes : String → Except PyErr Unit
  /-- `remove_container(id, ...)`: get followed by `c.remove(...)`. -/
  removeRes : String → Except PyErr Unit

/-- `getattr(container, "id", None)` followed by the `if container_id:`
truthiness test: yields the id only when present and nonempty. -/
def truthyId : Option String → Option String
| Option.none => Option.none
| some s => if s = "" then Option.none else some s

/-- An `Optional[str]` id as the `PyVal` stored in `Result.container_id`. -/
def optStrVal : Option String → PyVal
| Option.none => PyVal.none
| some s => PyVal.str s

/-- Python f-string rendering of an `Optional[str]` (None prints "None"),
as in `f"Deployment failed: {result.error}"`. -/
def errStr : Option String → String
| Option.none => "None"
| some s => s

/-- The `Result` value type of engine.py.  `container_id` is fixed at
construction by `self.container_id = container_id or host_port`. -/
structure Result where
  status : String
  host_port : PyVal
  container_id : PyVal
  container_port : Option Int
  error : Option String

/-- `Result.__init__` (engine.py lines 27-39): arguments in source order
`status, host_port, error, container_id, container_port`; the stored
`container_id` falls back to `host_port` when the given one is falsy. -/
def mkResult (status : String) (host_port : PyVal) (error : Option String)
    (container_id : PyVal) (container_port : Option Int) : Result :=
  { status := status
    host_port := host_port
    container_id := if pyTruthy container_id then container_id else host_port
    container_port := container_port
    error := error }

/-- `ContainerEngine.stop_container` (engine.py lines 175-184): the runtime
call is recorded, then its outcome (including the re-raised exception) is
propagated. -/
def stop_container (env : EngineEnv) (container_id : String) (timeout : Int) :
    PyM Unit := do
  PyM.emit (.stop container_id timeout)
  PyM.lift (env.stopRes container_id)

/-- `ContainerEngine.remove_container` (engine.py lines 186-195). -/
def remove_container (env : EngineEnv) (container_id : String) (force : Bool) :
    PyM Unit := do
  PyM.emit (.remove container_id force)
  PyM.lift (env.removeRes container_id)

/-- The keyword arguments `deploy` passes to `client.containers.run`
(engine.py lines 382-400), after the port default has been applied:
unique timestamped name, the three labels, the environment (only attached
when truthy, which the empty list models), and the port-publish request
mapping `container_port` to a runtime-chosen host port (`None`). -/
def deployRunKwargs (env : EngineEnv) (app_name image_tag : String)
    (container_port : Int) (environment : List (String × String)) : RtCall :=
  .run image_tag
    (app_name ++ "-" ++ toString env.now)
    [("app", app_name), ("managed_by", "pypaas"),
      ("container_port", toString container_port)]
    environment
    [(toString container_port ++ "/tcp", PyVal.none)]

/-- Embedding of `ContainerEngine.deploy` (engine.py lines 354-444).
A missing `container_port` defaults to 8080; the body runs the container,
reloads it, updates metrics inside its own catch-all, and builds the `ok`
result; any exception is caught and becomes a `failed` result carrying
`str(e)` and the declared container port. -/
def deploy (env : EngineEnv) (app_name image_tag : String)
    (container_port : Option Int) (environment : List (String × String)) :
    PyM Result :=
  let container_port := container_port.getD 8080
  pyCatchAll
    (do
      PyM.emit (deployRunKwargs env app_name image_tag container_port
        environment)
      let container ← PyM.lift env.runRes
      PyM.lift env.reloadRes
      pyCatchAll (do let _ ← PyM.lift env.metricsRes; pure ())
        (fun _ => pure ())
      let ports_dict := container.ports
      let container_id := optStrVal container.id
      pure (mkResult "ok" ports_dict Option.none container_id
        (some container_port)))
    (fun e =>
      pure (mkResult "failed" PyVal.none (some e.msg) PyVal.none
        (some container_port)))

/-- The rollback/except arm of `deploy_with_rollback` (engine.py lines
334-348), inlined at each raise site of the body with the value
`new_container` has there: best-effort stop (5s) and forced remove of the
new instance when one was obtained, then the `failed` result whose error is
`f"Deployment rolled back: {str(e)}"`. -/
def rollbackReturn (env : EngineEnv) (new_container : Option PContainer)
    (emsg : String) : PyM Result := do
  match new_container with
  | Option.none => pure ()
  | some c =>
      pyCatchAll
        (match truthyId c.id with
          | some cid => do
              stop_container env cid 5
              remove_container env cid true
          | Option.none => pure ())
        (fun _ => pure ())
  pure (mkResult "failed" PyVal.none
    (some ("Deployment rolled back: " ++ emsg)) PyVal.none Option.none)

/-- The success-path cleanup loop of `deploy_with_rollback` (engine.py
lines 322-329): each old container is stopped (10s) and force-removed
inside a per-iteration catch-all, so one failure moves on to the next. -/
def cleanupOld (env : EngineEnv) : List PContainer → PyM Unit
| [] => pure ()
| c :: rest => do
    pyCatchAll
      (match truthyId c.id with
        | some old_id => do
            stop_container env old_id 10
            remove_container env old_id true
        | Option.none => pure ())
      (fun _ => pure ())
    cleanupOld env rest

/-- Embedding of `ContainerEngine.deploy_with_rollback` (engine.py lines
261-352).  `list_containers` swallows listing errors into an empty old set.
The two `raise DeploymentError/HealthCheckError` sites of the body transfer
to `rollbackReturn` with the current `new_container` (`None` until
`containers.get` succeeds), which is exactly what the
`except (DeploymentError, HealthCheckError)` arm does with them; the outer
`pyCatchAll` is the final `except Exception` arm. -/
def deploy_with_rollback (env : EngineEnv) (app_name image_tag : String)
    (container_port : Option Int) (environment : List (String × String)) :
    PyM Result :=
  let old_containers :=
    match env.listRes with
    | .ok l => l
    | .error _ => []
  pyCatchAll
    (do
      let result ← deploy env app_name image_tag container_port environment
      if result.status ≠ "ok" then
        rollbackReturn env Option.none
          ("Deployment failed: " ++ errStr result.error)
      else
        match env.getRes result.container_id with
        | .error e =>
            rollbackReturn env Option.none
              ("Failed to get container: " ++ e.msg)
        | .ok new_container =>
            if env.healthOk then do
              cleanupOld env old_containers
              pure result
            else
              rollbackReturn env (some new_container) "Health check failed")
    (fun e =>
      pure (mkResult "failed" PyVal.none
        (some ("Unexpected error: " ++ e.msg)) PyVal.none Option.none))

/-! ## Health check (engine.py lines 197-259)

The source loops on wall-clock time (`while time.time() - start_time <
timeout`) sleeping `interval` seconds per failed attempt; the embedding
replaces the clock by a fuel counter (the number of attempts the timeout
still admits, about `timeout / interval`).  The container is observed anew
on each attempt: `HealthAttempt k` is what the `k`-th iteration sees. -/

/-- Outcome of one `requests.get("http://localhost:<port>/", timeout=2)`. -/
inductive ProbeResult where
| netError : ProbeResult
| resp (status_code : Nat) : ProbeResult

/-- What one iteration of the health-check loop observes: whether
`container.reload()` raises, the status after it, the `ports` dict, and
the HTTP response for a probe of a given `HostPort` value. -/
structure HealthAttempt where
  reloadOk : Bool
  status : Option String
  ports : List (PyVal × PyVal)
  probe : PyVal → ProbeResult

/-- The inner `for port_info in ports.values()` loop of `health_check`
(engine.py lines 231-247): a truthy list-valued mapping is probed via its
first record's `'HostPort'` (a non-dict first record raises
`AttributeError` on `.get`, which propagates to the attempt's catch-all);
a response below 500 returns healthy at once; a response of 500 or above,
a network error, or an untruthy/absent host port just moves to the next
mapping.  `.ok true` is the early `return True` with an HTTP proof;
`.ok false` means the loop finished without returning. -/
def probePorts (probe : PyVal → ProbeResult) :
    List (PyVal × PyVal) → Except PyErr Bool
| [] => .ok false
| (_, pv) :: rest =>
    if pyTruthy pv then
      match pv with
      | .list (first :: _) =>
          match first with
          | .dict fm =>
              let host_port := (dictGetStr fm "HostPort").getD PyVal.none
              if pyTruthy host_port then
                match probe host_port with
                | .resp code =>
                    if code < 500 then .ok true else probePorts probe rest
                | .netError => probePorts probe rest
              else probePorts probe rest
          | _ => .error (.attributeError "no attribute get")
      | _ => probePorts probe rest
    else probePorts probe rest

/-- The attempt loop of `health_check`: fuel counts the attempts the
timeout still admits; `k` is the attempt index.  A reload failure or a
non-`running` status sleeps and retries; a `running` container has its
ports probed — and, as in the source, reaching the end of the port loop
falls through to the unconditional `return True` at line 251, whether or
not an HTTP probe was possible and failed. -/
def healthCheckLoop (attempts : Nat → HealthAttempt) : Nat → Nat → Bool
| _, 0 => false
| k, fuel + 1 =>
    let a := attempts k
    if !a.reloadOk then healthCheckLoop attempts (k + 1) fuel
    else if a.status = some "running" then
      match probePorts a.probe a.ports with
      | .ok true => true
      | .ok false => true
      | .error _ => healthCheckLoop attempts (k + 1) fuel
    else healthCheckLoop attempts (k + 1) fuel

/-- Embedding of `ContainerEngine.health_check` (engine.py lines 197-259):
a container without an id is unhealthy at once; otherwise the attempt loop
runs until it returns or the fuel (timeout) is exhausted. -/
def health_check (container_id : Option String)
    (attempts : Nat → HealthAttempt) (fuel : Nat) : Bool :=
  match truthyId container_id with
  | Option.none => false
  | some _ => healthCheckLoop attempts 0 fuel

/-! ## The self-healing daemon: heal (healer.py lines 115-198) -/

/-- A container as `heal` inspects it: its id and its labels
(`getattr(container, "labels", {})`, string-to-string). -/
structure HContainer where
  id : Option String
  labels : List (String × String)

/-- Outcomes the runtime and the engine produce for the calls one `heal`
invocation makes. -/
structure HealerEnv where
  /-- `container.restart(timeout=10)`. -/
  restartRes : Except PyErr Unit
  /-- `container.reload()` after the restart and the 2s grace sleep. -/
  reloadRes : Except PyErr Unit
  /-- `getattr(container, "status", None)` after that reload. -/
  statusAfter : Option String
  /-- Whether `self.engine` is set (truthy). -/
  hasEngine : Bool
  /-- `container.stop(timeout=5)` in the best-effort pre-redeploy cleanup. -/
  stopRes : Except PyErr Unit
  /-- `container.remove(force=True)` in that cleanup. -/
  removeRes : Except PyErr Unit
  /-- `self.engine.deploy(app_name, f"<app_name>:latest")`; `deploy` never
      raises (claim C7) but the call is modelled with `Except` so that the
      surrounding `except` arm stays meaningful. -/
  deployRes : Except PyErr Result

/-- `labels.get("app", "unknown")`. -/
def labelsGet (labels : List (String × String)) (key dflt : String) : String :=
  match labels.find? (fun p => p.1 = key) with
  | some p => p.2
  | Option.none => dflt

/-- The restart attempt of `heal` (healer.py lines 138-160): restart, wait,
reload, and report `true` only when the refreshed status is `running`.
`except NotFound: pass` and `except Exception: ...warning...` both fall
through to the redeploy block, so every raised exception maps to `false`
here — the `NotFound` path is not a hard failure. -/
def healRestartAttempt (env : HealerEnv) (cid : String) : PyM Bool :=
  pyCatchAll
    (do
      PyM.emit (.restart cid 10)
      PyM.lift env.restartRes
      PyM.lift env.reloadRes
      if env.statusAfter = some "running" then pure true else pure false)
    (fun _ => pure false)

/-- The redeploy block of `heal` (healer.py lines 163-188), reached when
the restart attempt did not return: best-effort stop+remove of the old
container (its own silent catch; a stop failure skips the remove), then
`engine.deploy(app_name, f"<app_name>:latest")`; `ok` reports success, any
other status or a raised exception falls through to `return False`. -/
def healRedeploy (env : HealerEnv) (cid app_name : String) : PyM Bool :=
  pyCatchAll
    (do
      pyCatchAll
        (do
          PyM.emit (.stop cid 5)
          PyM.lift env.stopRes
          PyM.emit (.remove cid true)
          PyM.lift env.removeRes)
        (fun _ => pure ())
      PyM.emit (.deployApp app_name (app_name ++ ":latest"))
      let result ← PyM.lift env.deployRes
      if result.status = "ok" then pure true else pure false)
    (fun _ => pure false)

/-- Embedding of `ContainerHealer.heal` (healer.py lines 115-198): no (or
falsy) container id returns `false`; otherwise the restart attempt runs,
and if it did not prove the container running, the redeploy block runs when
an engine and a truthy app label other than `"unknown"` are available; the
outer catch-all is the `except APIError / except Exception` pair that maps
any leak to `false`. -/
def heal (env : HealerEnv) (c : HContainer) : PyM Bool :=
  match truthyId c.id with
  | Option.none => pure false
  | some cid =>
      pyCatchAll
        (do
          let app_name := labelsGet c.labels "app" "unknown"
          let restarted ← healRestartAttempt env cid
          if restarted then pure true
          else
            if env.hasEngine ∧ app_name ≠ "" ∧ app_name ≠ "unknown" then
              healRedeploy env cid app_name
            else pure false)
        (fun _ => pure false)

/-! ## The healing registry protocol (healer.py lines 77-108)

`check_health` guards each heal with the mutex-protected set
`_healing_in_progress`: under the lock it skips a container whose id is
already in the set and otherwise inserts the id; `heal` then runs without
the lock; a `finally` block removes the id under the lock again, whether
`heal` returned or raised.  The protocol is modelled as a transition system
over any number of concurrently executing `check_health` workers, each with
the list of unhealthy container ids it still has to process.  One `Heal`
call is in flight from the `acquire` step to the `unmark` step; its body
(phase `healing`) and its `finally` (phase `removing`) interleave freely
with every other worker. -/

/-- Where a worker stands with respect to its current container. -/
inductive HPhase where
| ready : HPhase
| healing (id : String) : HPhase
| removing (id : String) : HPhase

/-- One `check_health` execution: the unhealthy container ids it still has
to process, and its phase. -/
structure HWorker where
  pending : List String
  phase : HPhase

/-- The id a worker currently holds in the registry, if any: from the
atomic check-and-insert until the `finally` removal. -/
def HPhase.busyId : HPhase → Option String
| .ready => Option.none
| .healing i => some i
| .removing i => some i

/-- Global state: the `_healing_in_progress` registry and the workers. -/
def HState : Type := List String × (Nat → HWorker)

/-- The atomic steps of the registry protocol.  `skip` and `acquire` are
the lock-protected membership-check/insert (healer.py lines 90-98): a
registered id is skipped with no heal, an unregistered one is inserted and
its heal begins.  `finish` is the return (or raise) of `heal`; `unmark` is
the `finally` block's lock-protected `discard` (lines 105-108). -/
inductive HStep : HState → HState → Prop
| skip (S : List String) (W : Nat → HWorker) (w : Nat) (i : String)
    (rest : List String) (hw : W w = ⟨i :: rest, .ready⟩) (hmem : i ∈ S) :
    HStep (S, W) (S, Function.update W w ⟨rest, .ready⟩)
| acquire (S : List String) (W : Nat → HWorker) (w : Nat) (i : String)
    (rest : List String) (hw : W w = ⟨i :: rest, .ready⟩) (hmem : i ∉ S) :
    HStep (S, W) (i :: S, Function.update W w ⟨rest, .healing i⟩)
| finish (S : List String) (W : Nat → HWorker) (w : Nat) (p : List String)
    (i : String) (hw : W w = ⟨p, .healing i⟩) :
    HStep (S, W) (S, Function.update W w ⟨p, .removing i⟩)
| unmark (S : List String) (W : Nat → HWorker) (w : Nat) (p : List String)
    (i : String) (hw : W w = ⟨p, .removing i⟩) :
    HStep (S, W) (S.erase i, Function.update W w ⟨p, .ready⟩)

/-- Initial state: empty registry, every worker ready with its work list. -/
def HInit (pend : Nat → List String) : HState :=
  ([], fun w => ⟨pend w, .ready⟩)

/-- The at-most-one-heal invariant: the registry holds no duplicates, every
id a worker holds (for the whole duration of its heal, raise included) is
registered, and no two workers hold the same id. -/
def HInv : HState → Prop := fun st =>
  st.1.Nodup ∧
  (∀ w i, ((st.2 w).phase.busyId = some i) → i ∈ st.1) ∧
  (∀ w1 w2 i, w1 ≠ w2 → ((st.2 w1).phase.busyId = some i) →
    ((st.2 w2).phase.busyId = some i) → False)

/-- The runtime calls the success-path cleanup issues when every stop and
remove succeeds: stop with a 10-second grace then forced remove, for each
old instance in snapshot order. -/
def cleanupCalls : List String → List RtCall
| [] => []
| x :: rest => RtCall.stop x 10 :: RtCall.remove x true :: cleanupCalls rest

/-- A concrete engine environment in which `containers.run` raises
(`str(e) = "boom"`), for exercising the failed-deploy path. -/
def failedRunEnv : EngineEnv :=
  { now := 1700000000
    listRes := .ok []
    runRes := .error (.other "boom")
    reloadRes := .ok ()
    metricsRes := .ok 0
    getRes := fun _ => .error (.other "unused")
    healthOk := false
    stopRes := fun _ => .ok ()
    removeRes := fun _ => .ok () }

/-- A concrete engine environment in which the new container `c2` comes up
but its health check fails, for exercising the rollback path. -/
def rollbackEnv : EngineEnv :=
  { now := 1700000000
    listRes := .ok [⟨some "c1"⟩]
    runRes := .ok ⟨some "c2", .dict [(.str "8080/tcp",
      .list [.dict [(.str "HostPort", .str "49153")]])]⟩
    reloadRes := .ok ()
    metricsRes := .ok 2
    getRes := fun _ => .ok ⟨some "c2"⟩
    healthOk := false
    stopRes := fun _ => .ok ()
    removeRes := fun _ => .ok () }

/-- A concrete engine environment in which the new container `c2` comes up
and passes its health check, for exercising the success path with one old
instance `c1`. -/
def successEnv : EngineEnv :=
  { now := 1700000000
    listRes := .ok [⟨some "c1"⟩]
    runRes := .ok ⟨some "c2", .dict [(.str "8080/tcp",
      .list [.dict [(.str "HostPort", .str "49153")]])]⟩
    reloadRes := .ok ()
    metricsRes := .ok 2
    getRes := fun _ => .ok ⟨some "c2"⟩
    healthOk := true
    stopRes := fun _ => .ok ()
    removeRes := fun _ => .ok () }

/-- What every attempt of the buggy health-check scenario observes: the
container is running, publishes `80/tcp -> 8080`, and every HTTP probe of
it answers status 503. -/
def failing503Attempt : HealthAttempt :=
  { reloadOk := true
    status := some "running"
    ports := [(.str "80/tcp", .list [.dict [(.str "HostPort", .str "8080")]])]
    probe := fun _ => .resp 503 }

/-- A concrete healer environment: restart raises `NotFound`, the engine is
available, the pre-redeploy stop/remove succeed, and the redeploy returns
an `ok` outcome for container `c9`. -/
def healNotFoundEnv : HealerEnv :=
  { restartRes := .error (.notFound "404 not found")
    reloadRes := .ok ()
    statusAfter := Option.none
    hasEngine := true
    stopRes := .ok ()
    removeRes := .ok ()
    deployRes := .ok (mkResult "ok" PyVal.none Option.none (.str "c9")
      (some 8080)) }

/-! # Theorems -/

/-- Every exception `int()` raises is a `ValueError` or `TypeError`. -/
theorem pyToInt_error_isValueOrType (v : PyVal) (e : PyErr)
    (h : pyToInt v = .error e) : e.isValueOrType = true := by
  cases v <;> simp [pyToInt] at h <;> try simp [← h, PyErr.isValueOrType]
  case str s =>
    cases hs : pyStrToInt s <;> simp [hs] at h
    simp [← h, PyErr.isValueOrType]

/-- Every exception `int()` raises is caught by
`except (ValueError, TypeError, KeyError)`. -/
theorem pyToInt_error_isValueTypeKey (v : PyVal) (e : PyErr)
    (h : pyToInt v = .error e) : e.isValueTypeKey = true := by
  have h2 := pyToInt_error_isValueOrType v e h
  cases e <;> simp [PyErr.isValueOrType] at h2 <;> rfl

/-- The dict scan of `get_host_port` never lets an exception escape. -/
theorem getHostPortDictScan_total (entries : List (PyVal × PyVal)) :
    ∃ r, getHostPortDictScan entries = .ok r := by
  induction entries with
  | nil => exact ⟨Option.none, rfl⟩
  | cons hd rest ih =>
      obtain ⟨k, v⟩ := hd
      cases v with
      | list xs =>
          cases xs with
          | nil => simpa [getHostPortDictScan] using ih
          | cons first restl =>
              cases first with
              | dict fm =>
                  by_cases hk : dictHasStr fm "HostPort"
                  · cases hc : pyToInt ((dictGetStr fm "HostPort").getD PyVal.none) with
                    | ok n => exact ⟨some n, by simp [getHostPortDictScan, hk, hc]⟩
                    | error e =>
                        have := pyToInt_error_isValueTypeKey _ _ hc
                        simpa [getHostPortDictScan, hk, hc, this] using ih
                  · simpa [getHostPortDictScan, hk] using ih
              | none => simpa [getHostPortDictScan] using ih
              | int n => simpa [getHostPortDictScan] using ih
              | float q => simpa [getHostPortDictScan] using ih
              | str s => simpa [getHostPortDictScan] using ih
              | list ys => simpa [getHostPortDictScan] using ih
              | other => simpa [getHostPortDictScan] using ih
      | none => simpa [getHostPortDictScan] using ih
      | int n => simpa [getHostPortDictScan] using ih
      | float q => simpa [getHostPortDictScan] using ih
      | str s => simpa [getHostPortDictScan] using ih
      | dict es => simpa [getHostPortDictScan] using ih
      | other => simpa [getHostPortDictScan] using ih

/-- The list scan of `get_host_port` never lets an exception escape. -/
theorem getHostPortListScan_total (xs : List PyVal) :
    ∃ r, getHostPortListScan xs = .ok r := by
  cases xs with
  | nil => exact ⟨Option.none, rfl⟩
  | cons first rest =>
      cases first with
      | dict fm =>
          by_cases hk : dictHasStr fm "HostPort"
          · cases hc : pyToInt ((dictGetStr fm "HostPort").getD PyVal.none) with
            | ok n => exact ⟨some n, by simp [getHostPortListScan, hk, hc]⟩
            | error e =>
                have := pyToInt_error_isValueTypeKey _ _ hc
                exact ⟨Option.none, by simp [getHostPortListScan, hk, hc, this]⟩
          · exact ⟨Option.none, by simp [getHostPortListScan, hk]⟩
      | none => exact ⟨Option.none, rfl⟩
      | int n => exact ⟨Option.none, rfl⟩
      | float q => exact ⟨Option.none, rfl⟩
      | str s => exact ⟨Option.none, rfl⟩
      | list ys => exact ⟨Option.none, rfl⟩
      | other => exact ⟨Option.none, rfl⟩

/-- C4: For every input of any shape (integer, string, mapping from port
spec to lists of binding records, list of binding records, None, or any
other value, including malformed or empty variants), the port resolver
`Result.get_host_port` terminates normally and returns either an integer
or none: the `Except`-level embedding always yields a normal return, never
a propagated exception. -/
theorem get_host_port_never_raises (v : PyVal) :
    ∃ r : Option Int, get_host_portE v = .ok r ∧ get_host_port v = r := by
  cases v with
  | none => exact ⟨Option.none, rfl, rfl⟩
  | int n => exact ⟨some n, rfl, rfl⟩
  | float q => exact ⟨Option.none, rfl, rfl⟩
  | str s =>
      cases hc : pyToInt (.str s) with
      | ok n =>
          exact ⟨some n, by simp [get_host_portE, hc], by
            simp [get_host_port, get_host_portE, hc]⟩
      | error e =>
          have := pyToInt_error_isValueOrType _ _ hc
          exact ⟨Option.none, by simp [get_host_portE, hc, this], by
            simp [get_host_port, get_host_portE, hc, this]⟩
  | dict entries =>
      obtain ⟨r, hr⟩ := getHostPortDictScan_total entries
      exact ⟨r, by simpa [get_host_portE] using hr, by
        simp [get_host_port, get_host_portE, hr]⟩
  | list xs =>
      obtain ⟨r, hr⟩ := getHostPortListScan_total xs
      exact ⟨r, by simpa [get_host_portE] using hr, by
        simp [get_host_port, get_host_portE, hr]⟩
  | other => exact ⟨Option.none, rfl, rfl⟩

/-- C3 counterexample: the numeric string "99999" does not resolve to none
— `Result.get_host_port` returns 99999, an integer outside `[1, 65535]`,
so the resolver does not restrict its answers to valid ports. -/
theorem get_host_port_range_cex :
    get_host_port (.str "99999") = some 99999 ∧ ¬((99999 : Int) ≤ 65535) := by
  exact ⟨by decide, by decide⟩

/-- The `int()`-then-range-check step of `validate_port` only answers with
ports in `[1, 65535]`. -/
theorem validateViaInt_in_range (v : PyVal) (n : Int)
    (h : validateViaInt v = some n) : 1 ≤ n ∧ n ≤ 65535 := by
  rw [validateViaInt] at h
  cases hpt : pyToInt v with
  | ok m =>
      rw [hpt] at h
      have h5 : (if 1 ≤ m ∧ m ≤ 65535 then some m else Option.none) =
          some n := h
      by_cases hc : 1 ≤ m ∧ m ≤ 65535
      · have h4 : some m = some n := by rwa [if_pos hc] at h5
        exact (Option.some.inj h4) ▸ hc
      · rw [if_neg hc] at h5
        exact absurd h5 (by simp)
  | error e =>
      rw [hpt] at h
      exact absurd (show (Option.none : Option Int) = some n from h) (by simp)

/-- `validate_port` (network.py) only answers with ports in `[1, 65535]`. -/
theorem validate_port_in_range (v : PyVal) (n : Int)
    (h : validate_port v = some n) : 1 ≤ n ∧ n ≤ 65535 := by
  cases v with
  | float q =>
      have h2 : (if (!q.isInt) = true then Option.none
          else validateViaInt (.float q)) = some n := h
      cases hq : q.isInt with
      | false =>
          rw [hq] at h2
          simp at h2
      | true =>
          rw [hq] at h2
          simp only [Bool.not_true, Bool.false_eq_true, if_false] at h2
          exact validateViaInt_in_range _ _ h2
  | none => exact validateViaInt_in_range PyVal.none n h
  | int m => exact validateViaInt_in_range (.int m) n h
  | str s => exact validateViaInt_in_range (.str s) n h
  | dict es => exact validateViaInt_in_range (.dict es) n h
  | list xs => exact validateViaInt_in_range (.list xs) n h
  | other => exact validateViaInt_in_range PyVal.other n h

/-- The dict scan of `parse_docker_port_mapping` only answers with ports in
`[1, 65535]`. -/
theorem parseDockerDictScan_in_range (entries : List (PyVal × PyVal))
    (n : Int) (h : parseDockerDictScan entries = some n) :
    1 ≤ n ∧ n ≤ 65535 := by
  induction entries with
  | nil => simp [parseDockerDictScan] at h
  | cons hd rest ih =>
      obtain ⟨k, v⟩ := hd
      cases v with
      | list xs =>
          cases xs with
          | nil => exact ih (by simpa [parseDockerDictScan] using h)
          | cons first restl =>
              cases first with
              | dict fm =>
                  by_cases hk : dictHasStr fm "HostPort"
                  · simp [parseDockerDictScan, hk] at h
                    exact validate_port_in_range _ _ h
                  · exact ih (by simpa [parseDockerDictScan, hk] using h)
              | none => exact ih (by simpa [parseDockerDictScan] using h)
              | int m => exact ih (by simpa [parseDockerDictScan] using h)
              | float q => exact ih (by simpa [parseDockerDictScan] using h)
              | str s => exact ih (by simpa [parseDockerDictScan] using h)
              | list ys => exact ih (by simpa [parseDockerDictScan] using h)
              | other => exact ih (by simpa [parseDockerDictScan] using h)
      | none => exact ih (by simpa [parseDockerDictScan] using h)
      | int m => exact ih (by simpa [parseDockerDictScan] using h)
      | float q => exact ih (by simpa [parseDockerDictScan] using h)
      | str s => exact ih (by simpa [parseDockerDictScan] using h)
      | dict es => exact ih (by simpa [parseDockerDictScan] using h)
      | other => exact ih (by simpa [parseDockerDictScan] using h)

/-- The shape-dispatch fallback of `parse_docker_port_mapping` only
answers with ports in `[1, 65535]`. -/
theorem parseDockerFallback_in_range (v : PyVal) (n : Int)
    (h : parseDockerFallback v = some n) : 1 ≤ n ∧ n ≤ 65535 := by
  cases v with
  | dict entries => exact parseDockerDictScan_in_range entries n h
  | list xs =>
      cases xs with
      | nil =>
          exact absurd (show (Option.none : Option Int) = some n from h)
            (by simp)
      | cons first rest =>
          cases first with
          | dict fm =>
              have h2 : (if dictHasStr fm "HostPort" = true then
                  validate_port ((dictGetStr fm "HostPort").getD PyVal.none)
                  else Option.none) = some n := h
              split at h2
              · exact validate_port_in_range _ _ h2
              · exact absurd h2 (by simp)
          | none =>
              exact absurd (show (Option.none : Option Int) = some n from h)
                (by simp)
          | int m =>
              exact absurd (show (Option.none : Option Int) = some n from h)
                (by simp)
          | float q =>
              exact absurd (show (Option.none : Option Int) = some n from h)
                (by simp)
          | str s =>
              exact absurd (show (Option.none : Option Int) = some n from h)
                (by simp)
          | list ys =>
              exact absurd (show (Option.none : Option Int) = some n from h)
                (by simp)
          | other =>
              exact absurd (show (Option.none : Option Int) = some n from h)
                (by simp)
  | none =>
      exact absurd (show (Option.none : Option Int) = some n from h) (by simp)
  | int m =>
      exact absurd (show (Option.none : Option Int) = some n from h) (by simp)
  | float q =>
      exact absurd (show (Option.none : Option Int) = some n from h) (by simp)
  | str s =>
      exact absurd (show (Option.none : Option Int) = some n from h) (by simp)
  | other =>
      exact absurd (show (Option.none : Option Int) = some n from h) (by simp)

/-- C3 amended: `Result.get_host_port` performs no range validation — a
bare integer or a numeric string is returned as its integer value whatever
its magnitude (so "99999" resolves to 99999), while any float and any
non-numeric string resolve to none; the `[1, 65535]` restriction of the
claim is instead satisfied by the repository's other resolver,
`parse_docker_port_mapping` (network.py), which never answers with an
out-of-range port. -/
theorem get_host_port_amended :
    (∀ n : Int, get_host_port (.int n) = some n) ∧
    (∀ s n, pyStrToInt s = some n → get_host_port (.str s) = some n) ∧
    (∀ s, pyStrToInt s = Option.none → get_host_port (.str s) = Option.none) ∧
    (∀ q : Rat, get_host_port (.float q) = Option.none) ∧
    get_host_port (.str "99999") = some 99999 ∧
    (∀ v n, parse_docker_port_mapping v = some n → 1 ≤ n ∧ n ≤ 65535) := by
  refine ⟨fun n => rfl, ?_, ?_, fun q => rfl, by decide, ?_⟩
  · intro s n hs
    simp [get_host_port, get_host_portE, pyToInt, hs]
  · intro s hs
    simp [get_host_port, get_host_portE, pyToInt, hs, PyErr.isValueOrType]
  · intro v n h
    rw [parse_docker_port_mapping] at h
    cases hv : validate_port v with
    | some m =>
        rw [hv] at h
        have h3 : some m = some n := h
        exact (Option.some.inj h3) ▸ validate_port_in_range v m hv
    | none =>
        rw [hv] at h
        exact parseDockerFallback_in_range v n h

/-- Witness for the amended C3 statement at concrete inputs. -/
theorem get_host_port_amended_witness :
    get_host_port (.str "8080") = some 8080 ∧
    get_host_port (.str "not-a-port") = Option.none ∧
    (1 ≤ (8080 : Int) ∧ (8080 : Int) ≤ 65535) := by
  refine ⟨get_host_port_amended.2.1 "8080" 8080 (by decide),
    get_host_port_amended.2.2.1 "not-a-port" (by decide),
    get_host_port_amended.2.2.2.2.2 (.str "8080") 8080 (by decide)⟩

/-! ## Engine lemmas -/

/-- Running a `pure` computation. -/
@[simp] theorem PyM_pure_apply {α : Type} (a : α) (s : List RtCall) :
    (pure a : PyM α) s = (.ok a, s) := rfl

/-- Running a bind: the continuation sees the updated trace; an exception
short-circuits it. -/
@[simp] theorem PyM_bind_apply {α β : Type} (x : PyM α) (f : α → PyM β)
    (s : List RtCall) :
    (x >>= f) s =
      match x s with
      | (.ok a, s1) => f a s1
      | (.error e, s1) => (.error e, s1) := rfl

/-- Running an emit. -/
@[simp] theorem PyM_emit_apply (a : RtCall) (s : List RtCall) :
    PyM.emit a s = (.ok (), s ++ [a]) := rfl

/-- Running a lift. -/
@[simp] theorem PyM_lift_apply {α : Type} (r : Except PyErr α)
    (s : List RtCall) : PyM.lift r s = (r, s) := rfl

/-- Running a catch-all. -/
@[simp] theorem pyCatchAll_apply {α : Type} (body : PyM α)
    (handler : PyErr → PyM α) (s : List RtCall) :
    pyCatchAll body handler s =
      match body s with
      | (.ok a, s1) => (.ok a, s1)
      | (.error e, s1) => handler e s1 := rfl

/-- A successful run+reload makes `deploy` return the `ok` result for the
new container, with exactly the one `containers.run` call in the trace. -/
theorem deploy_ok (env : EngineEnv) (nc : NewContainer) (a i : String)
    (cp : Option Int) (ev : List (String × String)) (s : List RtCall)
    (hrun : env.runRes = .ok nc) (hreload : env.reloadRes = .ok ()) :
    deploy env a i cp ev s =
      (.ok (mkResult "ok" nc.ports Option.none (optStrVal nc.id)
          (some (cp.getD 8080))),
        s ++ [deployRunKwargs env a i (cp.getD 8080) ev]) := by
  cases hm : env.metricsRes with
  | ok k => simp [deploy, hrun, hreload, hm]
  | error e => simp [deploy, hrun, hreload, hm]

/-- A raising `containers.run` makes `deploy` return the `failed` result
carrying `str(e)`; the attempted run call is still in the trace. -/
theorem deploy_failed_run (env : EngineEnv) (e : PyErr) (a i : String)
    (cp : Option Int) (ev : List (String × String)) (s : List RtCall)
    (hrun : env.runRes = .error e) :
    deploy env a i cp ev s =
      (.ok (mkResult "failed" PyVal.none (some e.msg) PyVal.none
          (some (cp.getD 8080))),
        s ++ [deployRunKwargs env a i (cp.getD 8080) ev]) := by
  simp [deploy, hrun]

/-- A raising `container.reload()` makes `deploy` return the `failed`
result carrying `str(e)`. -/
theorem deploy_failed_reload (env : EngineEnv) (nc : NewContainer)
    (e : PyErr) (a i : String) (cp : Option Int)
    (ev : List (String × String)) (s : List RtCall)
    (hrun : env.runRes = .ok nc) (hreload : env.reloadRes = .error e) :
    deploy env a i cp ev s =
      (.ok (mkResult "failed" PyVal.none (some e.msg) PyVal.none
          (some (cp.getD 8080))),
        s ++ [deployRunKwargs env a i (cp.getD 8080) ev]) := by
  simp [deploy, hrun, hreload]

/-- `deploy` never raises, and every outcome is `ok` without error or
`failed` with an error text. -/
theorem deploy_total (env : EngineEnv) (a i : String) (cp : Option Int)
    (ev : List (String × String)) (s : List RtCall) :
    ∃ r, deploy env a i cp ev s =
      (.ok r, s ++ [deployRunKwargs env a i (cp.getD 8080) ev]) ∧
      (r.status = "ok" ∧ r.error = Option.none ∨
        r.status = "failed" ∧ r.error.isSome) := by
  cases hrun : env.runRes with
  | ok nc =>
      cases hreload : env.reloadRes with
      | ok u =>
          cases u
          exact ⟨_, deploy_ok env nc a i cp ev s hrun hreload,
            Or.inl ⟨rfl, rfl⟩⟩
      | error e =>
          exact ⟨_, deploy_failed_reload env nc e a i cp ev s hrun hreload,
            Or.inr ⟨rfl, rfl⟩⟩
  | error e =>
      exact ⟨_, deploy_failed_run env e a i cp ev s hrun,
        Or.inr ⟨rfl, rfl⟩⟩

/-- The rollback arm always returns normally with the rolled-back failed
result, whatever the cleanup outcomes. -/
theorem rollbackReturn_total (env : EngineEnv) (nc : Option PContainer)
    (emsg : String) (s : List RtCall) :
    ∃ s2, rollbackReturn env nc emsg s =
      (.ok (mkResult "failed" PyVal.none
        (some ("Deployment rolled back: " ++ emsg)) PyVal.none Option.none),
        s2) := by
  cases nc with
  | none => exact ⟨s, rfl⟩
  | some c =>
      cases hid : truthyId c.id with
      | none => exact ⟨s, by simp [rollbackReturn, hid]⟩
      | some cid =>
          cases hst : env.stopRes cid with
          | ok u =>
              cases u
              cases hrm : env.removeRes cid with
              | ok u2 =>
                  cases u2
                  exact ⟨s ++ [RtCall.stop cid 5, RtCall.remove cid true], by
                    simp [rollbackReturn, stop_container, remove_container,
                      hid, hst, hrm]⟩
              | error e =>
                  exact ⟨s ++ [RtCall.stop cid 5, RtCall.remove cid true], by
                    simp [rollbackReturn, stop_container, remove_container,
                      hid, hst, hrm]⟩
          | error e =>
              exact ⟨s ++ [RtCall.stop cid 5], by
                simp [rollbackReturn, stop_container, remove_container,
                  hid, hst]⟩

/-- When the new instance has an id and its stop and remove succeed, the
rollback arm issues exactly the stop (5s grace) and forced remove of that
instance. -/
theorem rollbackReturn_clean (env : EngineEnv) (c : PContainer)
    (cid : String) (emsg : String) (s : List RtCall)
    (hid : c.id = some cid) (hne : cid ≠ "")
    (hst : env.stopRes cid = .ok ()) (hrm : env.removeRes cid = .ok ()) :
    rollbackReturn env (some c) emsg s =
      (.ok (mkResult "failed" PyVal.none
        (some ("Deployment rolled back: " ++ emsg)) PyVal.none Option.none),
        s ++ [RtCall.stop cid 5, RtCall.remove cid true]) := by
  simp [rollbackReturn, stop_container, remove_container, truthyId, hid,
    hne, hst, hrm]

/-- The success-path cleanup loop never raises. -/
theorem cleanupOld_total (env : EngineEnv) (olds : List PContainer)
    (s : List RtCall) :
    ∃ s2, cleanupOld env olds s = (.ok (), s2) := by
  induction olds generalizing s with
  | nil => exact ⟨s, rfl⟩
  | cons c rest ih =>
      cases hid : truthyId c.id with
      | none =>
          obtain ⟨s2, h2⟩ := ih s
          exact ⟨s2, by simp [cleanupOld, hid, h2]⟩
      | some cid =>
          cases hst : env.stopRes cid with
          | ok u =>
              cases u
              cases hrm : env.removeRes cid with
              | ok u2 =>
                  cases u2
                  obtain ⟨s2, h2⟩ := ih (s ++ [RtCall.stop cid 10,
                    RtCall.remove cid true])
                  exact ⟨s2, by
                    simp [cleanupOld, stop_container, remove_container,
                      hid, hst, hrm]
                    simpa using h2⟩
              | error e =>
                  obtain ⟨s2, h2⟩ := ih (s ++ [RtCall.stop cid 10,
                    RtCall.remove cid true])
                  exact ⟨s2, by
                    simp [cleanupOld, stop_container, remove_container,
                      hid, hst, hrm]
                    simpa using h2⟩
          | error e =>
              obtain ⟨s2, h2⟩ := ih (s ++ [RtCall.stop cid 10])
              exact ⟨s2, by
                simp [cleanupOld, stop_container, remove_container, hid,
                  hst]
                simpa using h2⟩

/-- When every old instance has an id and all stops and removes succeed,
the cleanup loop issues exactly stop (10s) then forced remove, per old
instance in order. -/
theorem cleanupOld_clean (env : EngineEnv) (ids : List String)
    (s : List RtCall)
    (h : ∀ x ∈ ids, x ≠ "" ∧ env.stopRes x = .ok () ∧
      env.removeRes x = .ok ()) :
    cleanupOld env (ids.map fun x => PContainer.mk (some x)) s =
      (.ok (), s ++ cleanupCalls ids) := by
  induction ids generalizing s with
  | nil => simp [cleanupOld, cleanupCalls]
  | cons x rest ih =>
      obtain ⟨hne, hst, hrm⟩ := h x (by simp)
      have ihx := ih (s ++ [RtCall.stop x 10, RtCall.remove x true])
        (fun y hy => h y (by simp [hy]))
      simp [cleanupOld, cleanupCalls, stop_container, remove_container,
        truthyId, hne, hst, hrm]
      simpa using ihx

/-- C1: In every `deploy_with_rollback` call in which the inner deploy
succeeds but the health check of the new instance returns false, the old
instance set is untouched — every stop/remove issued targets the new
instance's id — the new instance is stopped with a 5-second grace period
and then forcibly removed, and the call returns a failed outcome whose
error text states the deployment was rolled back. -/
theorem deploy_with_rollback_health_fail (env : EngineEnv)
    (a i : String) (cp : Option Int) (ev : List (String × String))
    (nc : NewContainer) (nid : String) (gc : PContainer)
    (hrun : env.runRes = .ok nc) (hreload : env.reloadRes = .ok ())
    (hid : nc.id = some nid) (hne : nid ≠ "")
    (hget : env.getRes (.str nid) = .ok gc) (hgid : gc.id = some nid)
    (hhealth : env.healthOk = false)
    (hst : env.stopRes nid = .ok ()) (hrm : env.removeRes nid = .ok ()) :
    deploy_with_rollback env a i cp ev [] =
      (.ok (mkResult "failed" PyVal.none
          (some "Deployment rolled back: Health check failed") PyVal.none
          Option.none),
        [deployRunKwargs env a i (cp.getD 8080) ev, RtCall.stop nid 5,
          RtCall.remove nid true]) ∧
    (∀ x t, RtCall.stop x t ∈ (deploy_with_rollback env a i cp ev []).2 →
      x = nid) ∧
    (∀ x f, RtCall.remove x f ∈ (deploy_with_rollback env a i cp ev []).2 →
      x = nid) := by
  have hbeq : (nid == "") = false := by simpa using hne
  have hd := deploy_ok env nc a i cp ev [] hrun hreload
  have hrb := rollbackReturn_clean env gc nid "Health check failed"
    [deployRunKwargs env a i (cp.getD 8080) ev] hgid hne hst hrm
  have hmain : deploy_with_rollback env a i cp ev [] =
      (.ok (mkResult "failed" PyVal.none
          (some "Deployment rolled back: Health check failed") PyVal.none
          Option.none),
        [deployRunKwargs env a i (cp.getD 8080) ev, RtCall.stop nid 5,
          RtCall.remove nid true]) := by
    simp only [deploy_with_rollback, pyCatchAll_apply, PyM_bind_apply, hd]
    simp [mkResult, optStrVal, hid, pyTruthy, hbeq, hget, hhealth, hrb]
  refine ⟨hmain, ?_, ?_⟩
  · intro x t hx
    rw [hmain] at hx
    simp only [deployRunKwargs, List.mem_cons, List.mem_singleton] at hx
    rcases hx with h1 | h1 | h1 | h1 <;> simp_all
  · intro x f hx
    rw [hmain] at hx
    simp only [deployRunKwargs, List.mem_cons, List.mem_singleton] at hx
    rcases hx with h1 | h1 | h1 | h1 <;> simp_all

/-- Witness for C1 at a concrete environment: one old instance `c1`, new
instance `c2`, failing health check. -/
theorem deploy_with_rollback_health_fail_witness :
    deploy_with_rollback rollbackEnv "demo" "demo:v2" (some 8080) [] [] =
      (.ok (mkResult "failed" PyVal.none
          (some "Deployment rolled back: Health check failed") PyVal.none
          Option.none),
        [deployRunKwargs rollbackEnv "demo" "demo:v2" 8080 [],
          RtCall.stop "c2" 5, RtCall.remove "c2" true]) :=
  (deploy_with_rollback_health_fail rollbackEnv "demo" "demo:v2" (some 8080)
    [] ⟨some "c2", .dict [(.str "8080/tcp",
      .list [.dict [(.str "HostPort", .str "49153")]])]⟩ "c2" ⟨some "c2"⟩
    rfl rfl rfl (by decide) rfl rfl rfl rfl rfl).1

/-- C2: In every `deploy_with_rollback` call in which the health check of
the new instance passes, the call returns exactly the `ok` outcome of the
inner deploy (referencing the new instance) — whatever the outcomes of the
old-instance stops/removes, so a cleanup failure does not change the
returned outcome — and when those cleanup calls succeed, every instance in
the old-set snapshot is stopped with a 10-second grace period and then
forcibly removed, in order. -/
theorem deploy_with_rollback_success (env : EngineEnv)
    (a i : String) (cp : Option Int) (ev : List (String × String))
    (nc : NewContainer) (nid : String) (gc : PContainer)
    (ids : List String)
    (hrun : env.runRes = .ok nc) (hreload : env.reloadRes = .ok ())
    (hid : nc.id = some nid) (hne : nid ≠ "")
    (hget : env.getRes (.str nid) = .ok gc)
    (hhealth : env.healthOk = true)
    (hlist : env.listRes = .ok (ids.map fun x => PContainer.mk (some x))) :
    ((deploy_with_rollback env a i cp ev []).1 =
        .ok (mkResult "ok" nc.ports Option.none (optStrVal nc.id)
          (some (cp.getD 8080))) ∧
      (deploy_with_rollback env a i cp ev []).1 =
        (deploy env a i cp ev []).1) ∧
    ((∀ x ∈ ids, x ≠ "" ∧ env.stopRes x = .ok () ∧
        env.removeRes x = .ok ()) →
      deploy_with_rollback env a i cp ev [] =
        (.ok (mkResult "ok" nc.ports Option.none (optStrVal nc.id)
            (some (cp.getD 8080))),
          deployRunKwargs env a i (cp.getD 8080) ev :: cleanupCalls ids)) := by
  have hbeq : (nid == "") = false := by simpa using hne
  have hd := deploy_ok env nc a i cp ev [] hrun hreload
  constructor
  · obtain ⟨s2, hcl⟩ := cleanupOld_total env
      (ids.map fun x => PContainer.mk (some x))
      [deployRunKwargs env a i (cp.getD 8080) ev]
    have hmain : deploy_with_rollback env a i cp ev [] =
        (.ok (mkResult "ok" nc.ports Option.none (optStrVal nc.id)
          (some (cp.getD 8080))), s2) := by
      simp only [deploy_with_rollback, pyCatchAll_apply, PyM_bind_apply,
        hd, hlist]
      simp [mkResult, optStrVal, hid, pyTruthy, hbeq, hget, hhealth, hcl]
    rw [hmain, hd]
    exact ⟨rfl, rfl⟩
  · intro hsucc
    have hcl := cleanupOld_clean env ids
      [deployRunKwargs env a i (cp.getD 8080) ev] hsucc
    simp only [deploy_with_rollback, pyCatchAll_apply, PyM_bind_apply,
      hd, hlist]
    simp [mkResult, optStrVal, hid, pyTruthy, hbeq, hget, hhealth, hcl]

/-- Witness for C2 at a concrete environment: one old instance `c1`, new
instance `c2`, passing health check, all cleanup calls succeeding. -/
theorem deploy_with_rollback_success_witness :
    deploy_with_rollback successEnv "demo" "demo:v2" (some 8080) [] [] =
      (.ok (mkResult "ok" (PyVal.dict [(.str "8080/tcp",
          .list [.dict [(.str "HostPort", .str "49153")]])]) Option.none
          (optStrVal (some "c2")) (some 8080)),
        deployRunKwargs successEnv "demo" "demo:v2" 8080 [] ::
          cleanupCalls ["c1"]) :=
  (deploy_with_rollback_success successEnv "demo" "demo:v2" (some 8080) []
    ⟨some "c2", .dict [(.str "8080/tcp",
      .list [.dict [(.str "HostPort", .str "49153")]])]⟩ "c2" ⟨some "c2"⟩
    ["c1"] rfl rfl rfl (by decide) rfl rfl rfl).2
    (by intro x hx; simp at hx; subst hx; exact ⟨by decide, rfl, rfl⟩)

/-- C6 counterexample: when the inner deploy fails (here `containers.run`
raises "boom" with declared port 8080), `deploy_with_rollback` does not
return that outcome unchanged — it returns a different failed outcome whose
error text is rewrapped as a rollback message and whose container-port
field is cleared. -/
theorem dwr_inner_failed_cex :
    ((deploy failedRunEnv "demo" "demo:v2" (some 8080) []) []).1 =
      .ok (mkResult "failed" PyVal.none (some "boom") PyVal.none
        (some 8080)) ∧
    ((deploy_with_rollback failedRunEnv "demo" "demo:v2" (some 8080) [])
        []).1 =
      .ok (mkResult "failed" PyVal.none
        (some "Deployment rolled back: Deployment failed: boom") PyVal.none
        Option.none) ∧
    (mkResult "failed" PyVal.none
        (some "Deployment rolled back: Deployment failed: boom") PyVal.none
        Option.none).error ≠
      (mkResult "failed" PyVal.none (some "boom") PyVal.none
        (some 8080)).error ∧
    (mkResult "failed" PyVal.none
        (some "Deployment rolled back: Deployment failed: boom") PyVal.none
        Option.none).container_port ≠
      (mkResult "failed" PyVal.none (some "boom") PyVal.none
        (some 8080)).container_port := by
  refine ⟨rfl, rfl, by simp [mkResult], by simp [mkResult]⟩

/-- C6 amended: when the inner deploy returns a failed outcome,
`deploy_with_rollback` performs no stop or remove of any container beyond
the failed creation attempt itself, but it does not return the outcome
unchanged: it returns a fresh failed outcome whose error text is
"Deployment rolled back: Deployment failed: " followed by the inner error,
and whose container identifier and port fields are cleared. -/
theorem dwr_inner_failed_amended (env : EngineEnv) (a i : String)
    (cp : Option Int) (ev : List (String × String)) (r0 : Result)
    (hfail : (deploy env a i cp ev []).1 = .ok r0)
    (hst : r0.status = "failed") :
    deploy_with_rollback env a i cp ev [] =
      (.ok (mkResult "failed" PyVal.none
          (some ("Deployment rolled back: Deployment failed: " ++
            errStr r0.error)) PyVal.none Option.none),
        [deployRunKwargs env a i (cp.getD 8080) ev]) ∧
    (∀ x t, RtCall.stop x t ∉ (deploy_with_rollback env a i cp ev []).2) ∧
    (∀ x f, RtCall.remove x f ∉
      (deploy_with_rollback env a i cp ev []).2) := by
  obtain ⟨r, hd, -⟩ := deploy_total env a i cp ev []
  have hr : r = r0 := by
    have := hfail
    rw [hd] at this
    exact Except.ok.inj this
  subst hr
  have hnok : ¬ r.status = "ok" := by
    rw [hst]
    decide
  have hs : "Deployment rolled back: " ++
      ("Deployment failed: " ++ errStr r.error) =
      "Deployment rolled back: Deployment failed: " ++ errStr r.error := by
    rw [← String.append_assoc]
    congr 1
  have hmain : deploy_with_rollback env a i cp ev [] =
      (.ok (mkResult "failed" PyVal.none
          (some ("Deployment rolled back: Deployment failed: " ++
            errStr r.error)) PyVal.none Option.none),
        [deployRunKwargs env a i (cp.getD 8080) ev]) := by
    simp only [deploy_with_rollback, pyCatchAll_apply, PyM_bind_apply, hd]
    simp [rollbackReturn, hnok, hs]
  refine ⟨hmain, ?_, ?_⟩
  · intro x t hx
    rw [hmain] at hx
    simp [deployRunKwargs] at hx
  · intro x f hx
    rw [hmain] at hx
    simp [deployRunKwargs] at hx

/-- Witness for the amended C6 statement at a concrete environment. -/
theorem dwr_inner_failed_amended_witness :
    deploy_with_rollback failedRunEnv "demo" "demo:v2" (some 8080) [] [] =
      (.ok (mkResult "failed" PyVal.none
          (some ("Deployment rolled back: Deployment failed: " ++
            errStr (some "boom"))) PyVal.none Option.none),
        [deployRunKwargs failedRunEnv "demo" "demo:v2" 8080 []]) :=
  (dwr_inner_failed_amended failedRunEnv "demo" "demo:v2" (some 8080) []
    (mkResult "failed" PyVal.none (some "boom") PyVal.none (some 8080))
    rfl rfl).1

/-- C10: In every `deploy` call with no container port supplied, the
default 8080 is substituted: the run request labels the instance
`container_port="8080"`, publishes `8080/tcp` to a runtime-chosen host
port (`None`), and the returned `ok` outcome declares container port
8080. -/
theorem deploy_default_port (env : EngineEnv) (nc : NewContainer)
    (a i : String) (ev : List (String × String))
    (hrun : env.runRes = .ok nc) (hreload : env.reloadRes = .ok ()) :
    deploy env a i Option.none ev [] =
      (.ok (mkResult "ok" nc.ports Option.none (optStrVal nc.id)
          (some 8080)),
        [deployRunKwargs env a i 8080 ev]) ∧
    deployRunKwargs env a i 8080 ev =
      RtCall.run i (a ++ "-" ++ toString env.now)
        [("app", a), ("managed_by", "pypaas"), ("container_port", "8080")]
        ev [("8080/tcp", PyVal.none)] := by
  refine ⟨?_, ?_⟩
  · simpa using deploy_ok env nc a i Option.none ev [] hrun hreload
  · rfl

/-- Witness for C10 at a concrete environment. -/
theorem deploy_default_port_witness :
    deploy successEnv "demo" "demo:v2" Option.none [] [] =
      (.ok (mkResult "ok" (PyVal.dict [(.str "8080/tcp",
          .list [.dict [(.str "HostPort", .str "49153")]])]) Option.none
          (optStrVal (some "c2")) (some 8080)),
        [deployRunKwargs successEnv "demo" "demo:v2" 8080 []]) :=
  (deploy_default_port successEnv ⟨some "c2", .dict [(.str "8080/tcp",
    .list [.dict [(.str "HostPort", .str "49153")]])]⟩ "demo" "demo:v2" []
    rfl rfl).1

/-- C7: For every behaviour of the runtime client — every operation free
to raise at any step — `deploy` and `deploy_with_rollback` return normally
(never propagate an exception), and every outcome is `ok` or is `failed`
carrying an error description. -/
theorem deploy_never_raises (env : EngineEnv) (a i : String)
    (cp : Option Int) (ev : List (String × String)) (s : List RtCall) :
    (∃ r s2, deploy env a i cp ev s = (.ok r, s2) ∧
      (r.status = "ok" ∧ r.error = Option.none ∨
        r.status = "failed" ∧ r.error.isSome)) ∧
    (∃ r s2, deploy_with_rollback env a i cp ev s = (.ok r, s2) ∧
      (r.status = "ok" ∧ r.error = Option.none ∨
        r.status = "failed" ∧ r.error.isSome)) := by
  obtain ⟨r, hd, hprop⟩ := deploy_total env a i cp ev s
  refine ⟨⟨r, _, hd, hprop⟩, ?_⟩
  by_cases hok : r.status = "ok"
  · cases hg : env.getRes r.container_id with
    | error e =>
        obtain ⟨s2, hrb⟩ := rollbackReturn_total env Option.none
          ("Failed to get container: " ++ e.msg)
          (s ++ [deployRunKwargs env a i (cp.getD 8080) ev])
        refine ⟨mkResult "failed" PyVal.none
          (some ("Deployment rolled back: " ++
            ("Failed to get container: " ++ e.msg))) PyVal.none
          Option.none, s2, ?_, Or.inr ⟨rfl, rfl⟩⟩
        simp only [deploy_with_rollback, pyCatchAll_apply, PyM_bind_apply,
          hd]
        simp [hok, hg, hrb]
    | ok c =>
        cases hh : env.healthOk with
        | false =>
            obtain ⟨s2, hrb⟩ := rollbackReturn_total env (some c)
              "Health check failed"
              (s ++ [deployRunKwargs env a i (cp.getD 8080) ev])
            refine ⟨mkResult "failed" PyVal.none
              (some ("Deployment rolled back: " ++ "Health check failed"))
              PyVal.none Option.none, s2, ?_, Or.inr ⟨rfl, rfl⟩⟩
            simp only [deploy_with_rollback, pyCatchAll_apply,
              PyM_bind_apply, hd]
            simp [hok, hg, hh, hrb]
        | true =>
            obtain ⟨s2, hcl⟩ := cleanupOld_total env
              (match env.listRes with
                | .ok l => l
                | .error _ => [])
              (s ++ [deployRunKwargs env a i (cp.getD 8080) ev])
            refine ⟨r, s2, ?_, hprop⟩
            simp only [deploy_with_rollback, pyCatchAll_apply,
              PyM_bind_apply, hd]
            simp [hok, hg, hh, hcl]
  · obtain ⟨s2, hrb⟩ := rollbackReturn_total env Option.none
      ("Deployment failed: " ++ errStr r.error)
      (s ++ [deployRunKwargs env a i (cp.getD 8080) ev])
    refine ⟨mkResult "failed" PyVal.none
      (some ("Deployment rolled back: " ++
        ("Deployment failed: " ++ errStr r.error))) PyVal.none
      Option.none, s2, ?_, Or.inr ⟨rfl, rfl⟩⟩
    simp only [deploy_with_rollback, pyCatchAll_apply, PyM_bind_apply, hd]
    simp [hok, hrb]

/-- C5, code-bug evidence: a running container with published ports whose
every HTTP probe answers 503 is reported healthy by `health_check` — the
port loop falls through to the unconditional `return True` of engine.py
line 251 — although the claim (and the source's own comment, "If no HTTP
check possible, just check if running") requires a 500-or-above response to
count as one more failed attempt and the check to return false at the
timeout.  The second conjunct records that no probe of the attempt reported
healthy, so the `true` comes from the fall-through alone. -/
theorem health_check_500_bug :
    health_check (some "abc123") (fun _ => failing503Attempt) 15 = true ∧
    probePorts failing503Attempt.probe failing503Attempt.ports =
      .ok false := by
  exact ⟨rfl, rfl⟩

/-- C8: A container whose restart raises "not found" is not reported as a
heal failure immediately: with an engine and a truthy app label other than
"unknown" available, `heal` proceeds to the redeploy path — the restart
attempt and the `Orchestrator.Deploy(app, "<app>:latest")` call are both
issued — and returns true exactly when the redeploy outcome's status is
`ok`. -/
theorem heal_notfound_fallback (env : HealerEnv) (c : HContainer)
    (cid app m : String) (r : Result) (s : List RtCall)
    (hid : c.id = some cid) (hne : cid ≠ "")
    (happ : labelsGet c.labels "app" "unknown" = app)
    (hne2 : app ≠ "") (hnu : app ≠ "unknown")
    (hrs : env.restartRes = .error (.notFound m))
    (heng : env.hasEngine = true)
    (hdep : env.deployRes = .ok r) :
    ∃ b s2, heal env c s = (.ok b, s2) ∧
      (b = true ↔ r.status = "ok") ∧
      RtCall.deployApp app (app ++ ":latest") ∈ s2 ∧
      RtCall.restart cid 10 ∈ s2 := by
  refine ⟨if r.status = "ok" then true else false, ?_⟩
  have hval : ∀ x : Bool,
      (if r.status = "ok" then true else false) = x →
      ((if r.status = "ok" then true else false) = true ↔
        r.status = "ok") := by
    intro x _
    by_cases hok : r.status = "ok" <;> simp [hok]
  cases hst : env.stopRes with
  | ok u =>
      cases u
      cases hrm : env.removeRes with
      | ok u2 =>
          cases u2
          refine ⟨s ++ [RtCall.restart cid 10, RtCall.stop cid 5,
            RtCall.remove cid true, RtCall.deployApp app
              (app ++ ":latest")], ?_, hval _ rfl, by simp, by simp⟩
          simp [heal, healRestartAttempt, healRedeploy, truthyId, hid, hne,
            happ, hne2, hnu, hrs, heng, hdep, hst, hrm]
          by_cases hok : r.status = "ok" <;> simp [hok]
      | error e =>
          refine ⟨s ++ [RtCall.restart cid 10, RtCall.stop cid 5,
            RtCall.remove cid true, RtCall.deployApp app
              (app ++ ":latest")], ?_, hval _ rfl, by simp, by simp⟩
          simp [heal, healRestartAttempt, healRedeploy, truthyId, hid, hne,
            happ, hne2, hnu, hrs, heng, hdep, hst, hrm]
          by_cases hok : r.status = "ok" <;> simp [hok]
  | error e =>
      refine ⟨s ++ [RtCall.restart cid 10, RtCall.stop cid 5,
        RtCall.deployApp app (app ++ ":latest")], ?_, hval _ rfl,
        by simp, by simp⟩
      simp [heal, healRestartAttempt, healRedeploy, truthyId, hid, hne,
        happ, hne2, hnu, hrs, heng, hdep, hst]
      by_cases hok : r.status = "ok" <;> simp [hok]

/-- Witness for C8 at a concrete environment: container `c9` labelled
`app=demo`, restart raising NotFound, redeploy returning `ok`. -/
theorem heal_notfound_fallback_witness :
    ∃ b s2, heal healNotFoundEnv ⟨some "c9", [("app", "demo")]⟩ [] =
        (.ok b, s2) ∧
      (b = true ↔ (mkResult "ok" PyVal.none Option.none (.str "c9")
        (some 8080)).status = "ok") ∧
      RtCall.deployApp "demo" ("demo" ++ ":latest") ∈ s2 ∧
      RtCall.restart "c9" 10 ∈ s2 :=
  heal_notfound_fallback healNotFoundEnv ⟨some "c9", [("app", "demo")]⟩
    "c9" "demo" "404 not found"
    (mkResult "ok" PyVal.none Option.none (.str "c9") (some 8080)) []
    rfl (by decide) rfl (by decide) (by decide) rfl rfl rfl

/-- The initial state satisfies the registry invariant. -/
theorem HInv_init (pend : Nat → List String) : HInv (HInit pend) := by
  refine ⟨List.nodup_nil, ?_, ?_⟩
  · intro w j hj
    simp [HInit, HPhase.busyId] at hj
  · intro w1 w2 j hne h1 h2
    simp [HInit, HPhase.busyId] at h1

/-- Every protocol step preserves the registry invariant. -/
theorem HInv_step (st st2 : HState) (hinv : HInv st)
    (hs : HStep st st2) : HInv st2 := by
  obtain ⟨hnd, hmem, hmutex⟩ := hinv
  cases hs with
  | skip S W w i rest hw hmemS =>
      dsimp only [HInv] at hnd hmem hmutex ⊢
      refine ⟨hnd, ?_, ?_⟩
      · intro v j hj
        by_cases hvw : v = w
        · subst hvw
          rw [Function.update_same] at hj
          simp [HPhase.busyId] at hj
        · rw [Function.update_noteq hvw] at hj
          exact hmem v j hj
      · intro v1 v2 j hvne h1 h2
        by_cases h1w : v1 = w
        · subst h1w
          rw [Function.update_same] at h1
          simp [HPhase.busyId] at h1
        · by_cases h2w : v2 = w
          · subst h2w
            rw [Function.update_same] at h2
            simp [HPhase.busyId] at h2
          · rw [Function.update_noteq h1w] at h1
            rw [Function.update_noteq h2w] at h2
            exact hmutex v1 v2 j hvne h1 h2
  | acquire S W w i rest hw hmemS =>
      dsimp only [HInv] at hnd hmem hmutex ⊢
      refine ⟨List.nodup_cons.mpr ⟨hmemS, hnd⟩, ?_, ?_⟩
      · intro v j hj
        by_cases hvw : v = w
        · subst hvw
          rw [Function.update_same] at hj
          simp [HPhase.busyId] at hj
          subst hj
          exact List.mem_cons_self i S
        · rw [Function.update_noteq hvw] at hj
          exact List.mem_cons_of_mem i (hmem v j hj)
      · intro v1 v2 j hvne h1 h2
        by_cases h1w : v1 = w
        · subst h1w
          rw [Function.update_same] at h1
          simp [HPhase.busyId] at h1
          subst h1
          have h2b : (W v2).phase.busyId = some i := by
            rw [Function.update_noteq (Ne.symm hvne)] at h2
            exact h2
          exact hmemS (hmem v2 i h2b)
        · by_cases h2w : v2 = w
          · subst h2w
            rw [Function.update_same] at h2
            simp [HPhase.busyId] at h2
            subst h2
            have h1b : (W v1).phase.busyId = some i := by
              rw [Function.update_noteq h1w] at h1
              exact h1
            exact hmemS (hmem v1 i h1b)
          · rw [Function.update_noteq h1w] at h1
            rw [Function.update_noteq h2w] at h2
            exact hmutex v1 v2 j hvne h1 h2
  | finish S W w p i hw =>
      dsimp only [HInv] at hnd hmem hmutex ⊢
      refine ⟨hnd, ?_, ?_⟩
      · intro v j hj
        by_cases hvw : v = w
        · subst hvw
          rw [Function.update_same] at hj
          simp [HPhase.busyId] at hj
          subst hj
          exact hmem v i (by rw [hw]; rfl)
        · rw [Function.update_noteq hvw] at hj
          exact hmem v j hj
      · intro v1 v2 j hvne h1 h2
        have h1b : (W v1).phase.busyId = some j := by
          by_cases h1w : v1 = w
          · subst h1w
            rw [Function.update_same] at h1
            simp [HPhase.busyId] at h1
            rw [hw, h1]
            rfl
          · rw [Function.update_noteq h1w] at h1
            exact h1
        have h2b : (W v2).phase.busyId = some j := by
          by_cases h2w : v2 = w
          · subst h2w
            rw [Function.update_same] at h2
            simp [HPhase.busyId] at h2
            rw [hw, h2]
            rfl
          · rw [Function.update_noteq h2w] at h2
            exact h2
        exact hmutex v1 v2 j hvne h1b h2b
  | unmark S W w p i hw =>
      dsimp only [HInv] at hnd hmem hmutex ⊢
      have hww : (W w).phase.busyId = some i := by rw [hw]; rfl
      refine ⟨hnd.erase i, ?_, ?_⟩
      · intro v j hj
        by_cases hvw : v = w
        · subst hvw
          rw [Function.update_same] at hj
          simp [HPhase.busyId] at hj
        · rw [Function.update_noteq hvw] at hj
          have hji : j ≠ i := by
            intro hji
            subst hji
            exact hmutex v w j hvw hj hww
          exact (List.mem_erase_of_ne hji).mpr (hmem v j hj)
      · intro v1 v2 j hvne h1 h2
        by_cases h1w : v1 = w
        · subst h1w
          rw [Function.update_same] at h1
          simp [HPhase.busyId] at h1
        · by_cases h2w : v2 = w
          · subst h2w
            rw [Function.update_same] at h2
            simp [HPhase.busyId] at h2
          · rw [Function.update_noteq h1w] at h1
            rw [Function.update_noteq h2w] at h2
            exact hmutex v1 v2 j hvne h1 h2

/-- C9: In every interleaving of concurrently executing `check_health`
workers, the healing-registry protocol keeps its invariant: the registry
holds no duplicates, a container id a worker holds is a member of the
registry for the entire duration of its `Heal` call — through the
`finally` removal, so raise included — and no two workers ever hold the
same id, which is exactly "at most one Heal per id in flight"; a worker
that finds the id registered takes the `skip` transition, which calls no
heal. -/
theorem healing_registry_invariant (pend : Nat → List String)
    (st : HState) (h : Relation.ReflTransGen HStep (HInit pend) st) :
    HInv st := by
  induction h with
  | refl => exact HInv_init pend
  | tail hab hbc ih => exact HInv_step _ _ ih hbc

/-- Witness for C9: the invariant holds in the state reached after one
worker acquires container `c1` from the initial state. -/
theorem healing_registry_invariant_witness :
    HInv (["c1"], Function.update
      (fun _ => HWorker.mk ["c1"] HPhase.ready) 0
      (HWorker.mk [] (HPhase.healing "c1"))) :=
  healing_registry_invariant (fun _ => ["c1"]) _
    (Relation.ReflTransGen.single
      (HStep.acquire [] (fun _ => HWorker.mk ["c1"] HPhase.ready) 0 "c1" []
        rfl (by simp)))
